import Mathlib

/-!
# Verification of the fgp-neon daemon core

A shallow embedding of the request-dispatch and remote-API mediation layer of
the `fgp-neon` daemon (`src/api/client.rs`, `src/service.rs`, `src/main.rs`,
`src/models.rs`), together with proofs settling the behavioural claims of the
specification.

JSON values are modelled after `serde_json::Value`; numbers after
`serde_json::Number`, whose three variants are an unsigned 64-bit integer, a
negative signed 64-bit integer, and a double.  The only operation the program
performs on a float is `as_i64`, which returns `None` for every float
regardless of its value, so the float variant carries a rational stand-in for
the literal and no arithmetic on it is ever modelled.

HTTP effects are made explicit: each modelled operation returns, besides its
result, the list of HTTP requests it performs, in order.  Remote behaviour
(transport failures, statuses, decoded bodies) enters through explicit "world"
parameters, so each theorem quantifies over all remote behaviours.
-/

namespace FgpNeon

/-- `serde_json::Number`: a u64, a negative i64, or a double.  `float` carries
a rational stand-in for the numeric literal; the program never computes with
it (see `JNum.as_i64`). -/
inductive JNum where
  | posInt (n : Nat)
  | negInt (n : Int)
  | float (q : ℚ)
deriving DecidableEq

/-- `serde_json::Value`. -/
inductive Json where
  | null
  | bool (b : Bool)
  | num (n : JNum)
  | str (s : String)
  | arr (xs : List Json)
  | obj (fields : List (String × Json))

/-- `serde_json::Number::as_i64`: a u64 only when it fits in i64, a negative
i64 always, a float never (serde_json performs no float-to-int conversion). -/
def JNum.as_i64 : JNum → Option Int
  | .posInt n => if (n : Int) ≤ 2 ^ 63 - 1 then some (n : Int) else none
  | .negInt n => some n
  | .float _ => none

/-- `Value::as_str`: `Some` exactly on JSON strings. -/
def Json.asStr : Json → Option String
  | .str s => some s
  | _ => none

/-- `Value::as_bool`: `Some` exactly on JSON booleans. -/
def Json.asBool : Json → Option Bool
  | .bool b => some b
  | _ => none

/-- `Value::as_i64`: numbers defer to `JNum.as_i64`, everything else is
`None`. -/
def Json.as_i64 : Json → Option Int
  | .num n => n.as_i64
  | _ => none

/-- The untyped parameter bag `HashMap<String, Value>`, as an association
list with at most one binding per key (lookup takes the first binding). -/
abbrev Params := List (String × Json)

/-- `params.get(key)`. -/
def pget (params : Params) (key : String) : Option Json :=
  (params.find? (fun kv => kv.1 == key)).map (·.2)

/-- Rust `v as i32` applied to an i64: two's-complement truncation to the low
32 bits. -/
def wrap32 (n : Int) : Int :=
  (n + 2 ^ 31) % 2 ^ 32 - 2 ^ 31

/-- `NeonService::get_param_i32` (service.rs:32-38):
`params.get(key).and_then(|v| v.as_i64()).map(|v| v as i32).unwrap_or(default)`. -/
def get_param_i32 (params : Params) (key : String) (default : Int) : Int :=
  match (pget params key).bind Json.as_i64 with
  | some v => wrap32 v
  | none => default

/-- `NeonService::get_param_str` (service.rs:41-43):
`params.get(key).and_then(|v| v.as_str())`. -/
def get_param_str (params : Params) (key : String) : Option String :=
  (pget params key).bind Json.asStr

/-- A required string parameter:
`get_param_str(...).ok_or_else(|| anyhow!("Missing required parameter: {key}"))`,
the idiom every service method uses for its required parameters. -/
def requiredStr (params : Params) (key : String) : Except String String :=
  match get_param_str params key with
  | some s => .ok s
  | none => .error ("Missing required parameter: " ++ key)

/-! ## The HTTP API adapter (`src/api/client.rs`) -/

/-- `API_BASE` (client.rs:10). -/
def API_BASE : String := "https://console.neon.tech/api/v2"

/-- The decoded shape of one element of the `/endpoints` response
(client.rs:156-161). -/
structure Endpoint where
  id : String
  host : String
  branch_id : String
deriving DecidableEq

/-- An HTTP request the adapter performs. -/
inductive Req where
  | get (url : String)
  | post (url : String) (body : Json)

/-- Is the request a POST? -/
def Req.isPost : Req → Bool
  | .post _ _ => true
  | .get _ => false

/-- `2xx`, i.e. `reqwest::StatusCode::is_success` (200..=299). -/
def is2xx (status : Nat) : Bool :=
  200 ≤ status && status < 300

/-- URL of the endpoint-list fetch in `run_sql` (client.rs:149). -/
def endpointsUrl (project_id : String) : String :=
  API_BASE ++ "/projects/" ++ project_id ++ "/endpoints"

/-- The JSON body of the SQL POST (client.rs:184-187). -/
def sqlBody (query : String) : Json :=
  .obj [("query", .str query), ("params", .arr [])]

/-- Remote behaviour seen by `run_sql`: the (transport-or-decode) outcome of
the endpoint-list fetch, already decoded to `List Endpoint`, and for each
possible SQL POST the transport outcome, a status code paired with the decoded
response body. -/
structure SqlWorld where
  endpoints : Except String (List Endpoint)
  sqlResp : String → Json → Except String (Nat × Json)

/-- `NeonClient::run_sql` (client.rs:147-211).  Fetches the endpoint list for
the project, selects the first endpoint whose `branch_id` equals the requested
branch (`.iter().find(...)`), fails with "No endpoint found for branch ..."
when there is none, and otherwise POSTs the query to
`https://<endpoint.host>/sql`.  Returns the result together with the ordered
list of HTTP requests performed. -/
def run_sql (w : SqlWorld) (project_id branch_id _database query : String) :
    Except String Json × List Req :=
  let getR := Req.get (endpointsUrl project_id)
  match w.endpoints with
  | .error e => (.error e, [getR])
  | .ok eps =>
    match eps.find? (fun e => e.branch_id == branch_id) with
    | none => (.error ("No endpoint found for branch " ++ branch_id), [getR])
    | some e =>
      let url := "https://" ++ e.host ++ "/sql"
      let body := sqlBody query
      match w.sqlResp url body with
      | .error err => (.error ("Failed to execute SQL: " ++ err), [getR, .post url body])
      | .ok (status, rbody) =>
        if is2xx status then (.ok rbody, [getR, .post url body])
        else (.error ("SQL execution failed: " ++ toString status), [getR, .post url body])

/-- The fixed catalog query of `get_tables` (client.rs:133). -/
def tablesQuery : String :=
  "SELECT schemaname as schema, tablename as name FROM pg_catalog.pg_tables WHERE schemaname NOT IN ('pg_catalog', 'information_schema') ORDER BY schemaname, tablename"

/-- Character-list form of `str::replace('\'', "''")`: each single quote is
doubled, every other character is kept. -/
def escapeQuotes : List Char → List Char
  | [] => []
  | c :: rest =>
    if c = '\'' then '\'' :: '\'' :: escapeQuotes rest
    else c :: escapeQuotes rest

/-- Single-quote escaping of the table name in `get_table_schema`
(client.rs:141): `table.replace('\'', "''")` — the pattern is the single
character `'`, so the replacement doubles each occurrence. -/
def sqlEscape (s : String) : String :=
  ⟨escapeQuotes s.data⟩

/-- The interpolated catalog query of `get_table_schema` (client.rs:139-142). -/
def tableSchemaQuery (table : String) : String :=
  "SELECT column_name, data_type, is_nullable::boolean, column_default FROM information_schema.columns WHERE table_name = '"
    ++ sqlEscape table ++ "' ORDER BY ordinal_position"

/-- `NeonClient::get_tables` (client.rs:131-135): `run_sql` on the fixed
catalog query. -/
def get_tables (w : SqlWorld) (project_id branch_id database : String) :
    Except String Json × List Req :=
  run_sql w project_id branch_id database tablesQuery

/-- `NeonClient::get_table_schema` (client.rs:138-144): `run_sql` on the
interpolated catalog query. -/
def get_table_schema (w : SqlWorld) (project_id branch_id database table : String) :
    Except String Json × List Req :=
  run_sql w project_id branch_id database (tableSchemaQuery table)

/-- URL of the `ping` health-check request (client.rs:63). -/
def pingUrl (org_id : String) : String :=
  API_BASE ++ "/projects?org_id=" ++ org_id ++ "&limit=1"

/-- `NeonClient::ping` (client.rs:61-75), over a transport oracle mapping a
URL to either a transport failure or a status code.  Transport failure is
propagated (with the `context` message); any response yields
`Ok(status.is_success())`. -/
def ping (transport : String → Except String Nat) (org_id : String) :
    Except String Bool × List Req :=
  let url := pingUrl org_id
  match transport url with
  | .error e => (.error ("Failed to ping Neon API: " ++ e), [.get url])
  | .ok status => (.ok (is2xx status), [.get url])

/-- `NeonClient::list_projects` builds the endpoint
`/projects?org_id=<org>&limit=<n>` after `limit.unwrap_or(10)`
(client.rs:78-80); the full URL interpolates the (possibly negative) i32
value in decimal, unchecked. -/
def listProjectsUrl (org_id : String) (limit : Option Int) : String :=
  API_BASE ++ "/projects?org_id=" ++ org_id ++ "&limit=" ++ toString (limit.getD 10)

/-! ## The service dispatcher (`src/service.rs`)

Every service method extracts and validates all of its parameters before its
single `runtime.block_on` call into the adapter, so dispatch factors exactly
into a pure validation stage producing an adapter invocation (modelled here as
`dispatchCall`) followed by the adapter's HTTP activity; a validation failure
performs no HTTP request. -/

/-- The adapter operation a successful dispatch invokes, with the exact
argument values the service method passes (service.rs:284-299 and the method
bodies above it). -/
inductive AdapterCall where
  | ping
  | listProjects (limit : Option Int)
  | getProject (project_id : String)
  | listBranches (project_id : String)
  | listDatabases (project_id branch_id : String)
  | getTables (project_id branch_id database : String)
  | getTableSchema (project_id branch_id database table : String)
  | runSql (project_id branch_id database query : String)
  | getUser
  | createBranch (project_id : String) (name parent_id : Option String)
  | deleteBranch (project_id branch_id : String)
  | getConnectionString (project_id : String) (branch_id database : Option String)
      (pooled : Bool)
deriving DecidableEq

/-- `NeonService::list_projects` validation stage (service.rs:58-64):
`limit = get_param_i32(params, "limit", 10)`, passed as `Some(limit)`. -/
def svc_list_projects (params : Params) : Except String AdapterCall :=
  .ok (.listProjects (some (get_param_i32 params "limit" 10)))

/-- `NeonService::get_project` validation stage (service.rs:73-82). -/
def svc_get_project (params : Params) : Except String AdapterCall :=
  match requiredStr params "project_id" with
  | .error e => .error e
  | .ok pid => .ok (.getProject pid)

/-- `NeonService::list_branches` validation stage (service.rs:88-97). -/
def svc_list_branches (params : Params) : Except String AdapterCall :=
  match requiredStr params "project_id" with
  | .error e => .error e
  | .ok pid => .ok (.listBranches pid)

/-- `NeonService::list_databases` validation stage (service.rs:106-118). -/
def svc_list_databases (params : Params) : Except String AdapterCall :=
  match requiredStr params "project_id" with
  | .error e => .error e
  | .ok pid =>
    match requiredStr params "branch_id" with
    | .error e => .error e
    | .ok bid => .ok (.listDatabases pid bid)

/-- `NeonService::get_tables` validation stage (service.rs:127-142). -/
def svc_get_tables (params : Params) : Except String AdapterCall :=
  match requiredStr params "project_id" with
  | .error e => .error e
  | .ok pid =>
    match requiredStr params "branch_id" with
    | .error e => .error e
    | .ok bid => .ok (.getTables pid bid ((get_param_str params "database").getD "neondb"))

/-- `NeonService::get_table_schema` validation stage (service.rs:148-166).
In the source the infallible `database` lookup (`unwrap_or("neondb")`) sits
between the `branch_id` and `table` extractions; being infallible it is
inlined here, which preserves both the result and the error order. -/
def svc_get_table_schema (params : Params) : Except String AdapterCall :=
  match requiredStr params "project_id" with
  | .error e => .error e
  | .ok pid =>
    match requiredStr params "branch_id" with
    | .error e => .error e
    | .ok bid =>
      match requiredStr params "table" with
      | .error e => .error e
      | .ok table =>
        .ok (.getTableSchema pid bid ((get_param_str params "database").getD "neondb") table)

/-- `NeonService::run_sql` validation stage (service.rs:174-192).  As in
`svc_get_table_schema`, the infallible `database` lookup is inlined. -/
def svc_run_sql (params : Params) : Except String AdapterCall :=
  match requiredStr params "project_id" with
  | .error e => .error e
  | .ok pid =>
    match requiredStr params "branch_id" with
    | .error e => .error e
    | .ok bid =>
      match requiredStr params "query" with
      | .error e => .error e
      | .ok query =>
        .ok (.runSql pid bid ((get_param_str params "database").getD "neondb") query)

/-- `NeonService::create_branch` validation stage (service.rs:211-222). -/
def svc_create_branch (params : Params) : Except String AdapterCall :=
  match requiredStr params "project_id" with
  | .error e => .error e
  | .ok pid =>
    .ok (.createBranch pid (get_param_str params "name") (get_param_str params "parent_id"))

/-- `NeonService::delete_branch` validation stage (service.rs:230-241). -/
def svc_delete_branch (params : Params) : Except String AdapterCall :=
  match requiredStr params "project_id" with
  | .error e => .error e
  | .ok pid =>
    match requiredStr params "branch_id" with
    | .error e => .error e
    | .ok bid => .ok (.deleteBranch pid bid)

/-- `NeonService::get_connection_string` validation stage (service.rs:247-267):
`branch_id` and `database` pass through as options with no default applied;
`pooled = params.get("pooled").and_then(|v| v.as_bool()).unwrap_or(false)`. -/
def svc_get_connection_string (params : Params) : Except String AdapterCall :=
  match requiredStr params "project_id" with
  | .error e => .error e
  | .ok pid =>
    .ok (.getConnectionString pid (get_param_str params "branch_id")
      (get_param_str params "database")
      (((pget params "pooled").bind Json.asBool).getD false))

/-- `NeonService::dispatch` (service.rs:284-300), up to the adapter
invocation each arm performs. -/
def dispatchCall (method : String) (params : Params) : Except String AdapterCall :=
  match method with
  | "health" => .ok .ping
  | "projects" | "neon.projects" => svc_list_projects params
  | "project" | "neon.project" => svc_get_project params
  | "branches" | "neon.branches" => svc_list_branches params
  | "databases" | "neon.databases" => svc_list_databases params
  | "tables" | "neon.tables" => svc_get_tables params
  | "schema" | "neon.schema" => svc_get_table_schema params
  | "sql" | "neon.sql" => svc_run_sql params
  | "user" | "neon.user" => .ok .getUser
  | "create_branch" | "neon.create_branch" => svc_create_branch params
  | "delete_branch" | "neon.delete_branch" => svc_delete_branch params
  | "connection_string" | "neon.connection_string" => svc_get_connection_string params
  | m => .error ("Unknown method: " ++ m)

/-- The required parameters of each dispatched method, read off the
`required: true` entries of `method_list` (service.rs:302-514); aliases
dispatch identically (service.rs:284-299).  All required parameters are
string-typed. -/
def reqParams : String → List String
  | "project" | "neon.project" => ["project_id"]
  | "branches" | "neon.branches" => ["project_id"]
  | "databases" | "neon.databases" => ["project_id", "branch_id"]
  | "tables" | "neon.tables" => ["project_id", "branch_id"]
  | "schema" | "neon.schema" => ["project_id", "branch_id", "table"]
  | "sql" | "neon.sql" => ["project_id", "branch_id", "query"]
  | "create_branch" | "neon.create_branch" => ["project_id"]
  | "delete_branch" | "neon.delete_branch" => ["project_id", "branch_id"]
  | "connection_string" | "neon.connection_string" => ["project_id"]
  | _ => []

/-- `fgp_daemon::service::ParamInfo` as populated by `method_list`. -/
structure ParamInfo where
  name : String
  param_type : String
  required : Bool
  default : Option Json

/-- `fgp_daemon::service::MethodInfo` as populated by `method_list`. -/
structure MethodInfo where
  name : String
  description : String
  params : List ParamInfo

/-- `NeonService::method_list` (service.rs:302-514), transcribed entry for
entry (descriptions elided where not load-bearing are kept verbatim). -/
def method_list : List MethodInfo :=
  [ { name := "neon.projects", description := "List all Neon projects",
      params := [⟨"limit", "integer", false, some (.num (.posInt 10))⟩] },
    { name := "neon.project", description := "Get a specific project",
      params := [⟨"project_id", "string", true, none⟩] },
    { name := "neon.branches", description := "List branches for a project",
      params := [⟨"project_id", "string", true, none⟩] },
    { name := "neon.databases", description := "List databases for a branch",
      params := [⟨"project_id", "string", true, none⟩,
                 ⟨"branch_id", "string", true, none⟩] },
    { name := "neon.tables", description := "List tables in a database",
      params := [⟨"project_id", "string", true, none⟩,
                 ⟨"branch_id", "string", true, none⟩,
                 ⟨"database", "string", false, some (.str "neondb")⟩] },
    { name := "neon.schema", description := "Get table schema",
      params := [⟨"project_id", "string", true, none⟩,
                 ⟨"branch_id", "string", true, none⟩,
                 ⟨"database", "string", false, some (.str "neondb")⟩,
                 ⟨"table", "string", true, none⟩] },
    { name := "neon.sql", description := "Run a SQL query",
      params := [⟨"project_id", "string", true, none⟩,
                 ⟨"branch_id", "string", true, none⟩,
                 ⟨"database", "string", false, some (.str "neondb")⟩,
                 ⟨"query", "string", true, none⟩] },
    { name := "neon.user", description := "Get current user info", params := [] },
    { name := "neon.create_branch", description := "Create a new branch",
      params := [⟨"project_id", "string", true, none⟩,
                 ⟨"name", "string", false, none⟩,
                 ⟨"parent_id", "string", false, none⟩] },
    { name := "neon.delete_branch", description := "Delete a branch",
      params := [⟨"project_id", "string", true, none⟩,
                 ⟨"branch_id", "string", true, none⟩] },
    { name := "neon.connection_string", description := "Get connection string for a branch",
      params := [⟨"project_id", "string", true, none⟩,
                 ⟨"branch_id", "string", false, none⟩,
                 ⟨"database", "string", false, some (.str "neondb")⟩,
                 ⟨"pooled", "boolean", false, some (.bool false)⟩] } ]

/-- The HTTP requests an adapter operation performs (client.rs).  The three
control-plane mutations are absent from `src/api/client.rs`; they are
modelled from the spec: "control-plane mutations; semantics pass through to
the remote", as a single control-plane request each.  No theorem below
depends on their value. -/
def adapterReqs (w : SqlWorld) (org_id : String) : AdapterCall → List Req
  | .ping => [.get (pingUrl org_id)]
  | .listProjects limit => [.get (listProjectsUrl org_id limit)]
  | .getProject pid => [.get (API_BASE ++ "/projects/" ++ pid)]
  | .listBranches pid => [.get (API_BASE ++ "/projects/" ++ pid ++ "/branches")]
  | .listDatabases pid bid =>
      [.get (API_BASE ++ "/projects/" ++ pid ++ "/branches/" ++ bid ++ "/databases")]
  | .getTables pid bid db => (get_tables w pid bid db).2
  | .getTableSchema pid bid db table => (get_table_schema w pid bid db table).2
  | .runSql pid bid db q => (run_sql w pid bid db q).2
  | .getUser => [.get (API_BASE ++ "/users/me")]
  | .createBranch pid _ _ => [.post (API_BASE ++ "/projects/" ++ pid ++ "/branches") .null]
  | .deleteBranch pid bid =>
      [.get (API_BASE ++ "/projects/" ++ pid ++ "/branches/" ++ bid)]
  | .getConnectionString pid _ _ _ =>
      [.get (API_BASE ++ "/projects/" ++ pid ++ "/connection_uri")]

/-- The HTTP requests one dispatch performs: those of the adapter operation it
invokes, and none when validation fails (every service method validates all
parameters before its `block_on` into the adapter). -/
def dispatchReqs (w : SqlWorld) (org_id : String) (method : String) (params : Params) :
    List Req :=
  match dispatchCall method params with
  | .error _ => []
  | .ok c => adapterReqs w org_id c

/-! ## Startup probe and lifecycle (`src/service.rs`, `src/main.rs`) -/

/-- `NeonService::on_start` (service.rs:516-535): one `ping`; `Ok(true)`
logs info and succeeds, `Ok(false)` logs a warning and still succeeds,
`Err` propagates the error.  Returns (result, HTTP requests performed,
warning-level log lines). -/
def on_start (transport : String → Except String Nat) (org_id : String) :
    Except String Unit × List Req × List String :=
  match ping transport org_id with
  | (.ok true, reqs) => (.ok (), reqs, [])
  | (.ok false, reqs) => (.ok (), reqs, ["Neon API returned unsuccessful response"])
  | (.error e, reqs) => (.error e, reqs, [])

/-- Outcome of `ps -p <pid> -o comm=`: `fail` when the command cannot be run
or exits unsuccessfully, otherwise the captured stdout. -/
inductive PsResult where
  | fail
  | ok (comm : String)

/-- Substring containment, Rust `str::contains(&str)`: the pattern's
character sequence occurs contiguously in the haystack's. -/
def strContains (hay pat : String) : Bool :=
  decide (pat.data <:+: hay.data)

/-- Rust `str::trim`: drop whitespace from both ends. -/
def strTrim (s : String) : String :=
  ⟨((s.data.dropWhile Char.isWhitespace).reverse.dropWhile Char.isWhitespace).reverse⟩

/-- `pid_matches_process` (main.rs:207-219): true iff `ps` succeeded and its
trimmed output contains the expected name
(`command.trim().contains(expected_name)`). -/
def pid_matches_process (ps : PsResult) (expected_name : String) : Bool :=
  match ps with
  | .fail => false
  | .ok comm => strContains (strTrim comm) expected_name

/-- The signal-sending action of `cmd_stop`. -/
inductive StopAction where
  | sigterm (pid : Int)
deriving DecidableEq

/-- The PID-file path of `cmd_stop` (main.rs:180-204), entered when the
socket-level stop did not succeed, after the PID has been parsed: bail with
"Refusing to stop PID <pid>: unexpected process" unless
`pid_matches_process(pid, "fgp-neon")`, else send SIGTERM (then sleep and
clean up files, not modelled).  An `.error` result is a non-zero exit of the
command. -/
def cmd_stop_pidPath (pid : Int) (ps : PsResult) : Except String (List StopAction) :=
  if pid_matches_process ps "fgp-neon" then
    .ok [.sigterm pid]
  else
    .error ("Refusing to stop PID " ++ toString pid ++ ": unexpected process")

/-! ## Helper lemmas -/

/-- `List.find?` returns the first element satisfying the predicate: the list
splits around the result, with no earlier element satisfying it. -/
theorem find?_first_match {α : Type} (p : α → Bool) :
    ∀ (l : List α) (a : α), l.find? p = some a →
      ∃ pre post, l = pre ++ a :: post ∧ (∀ x ∈ pre, p x = false) ∧ p a = true := by
  intro l
  induction l with
  | nil => intro a h; simp [List.find?] at h
  | cons b t ih =>
    intro a h
    by_cases hb : p b = true
    · rw [List.find?_cons_of_pos _ hb] at h
      obtain rfl : b = a := by exact Option.some.inj h
      exact ⟨[], t, rfl, by simp, hb⟩
    · rw [List.find?_cons_of_neg _ hb] at h
      obtain ⟨pre, post, hsplit, hpre, hpa⟩ := ih a h
      exact ⟨b :: pre, post, by simp [hsplit], by
        intro x hx
        rcases List.mem_cons.mp hx with rfl | hx
        · simpa using hb
        · exact hpre x hx, hpa⟩

/-- A dispatch whose validation stage fails performs no HTTP request. -/
theorem dispatchReqs_of_error (w : SqlWorld) (org m : String) (params : Params)
    (e : String) (h : dispatchCall m params = .error e) :
    dispatchReqs w org m params = [] := by
  simp [dispatchReqs, h]

/-! ## Claims -/

/-- C4: for every table-name string `t`, `get_table_schema` interpolates `t`
into the catalog query after doubling each embedded single quote, so the
generated SQL contains the literal substring
`table_name = '<t with each ' doubled>'`; for `t = "O'Brien"` the escaped
form is `O''Brien`, hence the SQL contains `table_name = 'O''Brien'`. -/
theorem get_table_schema_escapes_quotes :
    (∀ t, ∃ pre post,
        tableSchemaQuery t = pre ++ ("table_name = '" ++ sqlEscape t ++ "'") ++ post)
    ∧ sqlEscape "O'Brien" = "O''Brien"
    ∧ (∀ w pid bid db t,
        get_table_schema w pid bid db t = run_sql w pid bid db (tableSchemaQuery t)) := by
  refine ⟨?_, by decide, fun _ _ _ _ _ => rfl⟩
  intro t
  refine ⟨"SELECT column_name, data_type, is_nullable::boolean, column_default FROM information_schema.columns WHERE ",
    " ORDER BY ordinal_position", ?_⟩
  have h1 : ("SELECT column_name, data_type, is_nullable::boolean, column_default FROM information_schema.columns WHERE table_name = '" : String)
      = "SELECT column_name, data_type, is_nullable::boolean, column_default FROM information_schema.columns WHERE "
        ++ "table_name = '" := rfl
  have h2 : ("' ORDER BY ordinal_position" : String) = "'" ++ " ORDER BY ordinal_position" := rfl
  unfold tableSchemaQuery
  rw [h1, h2]
  simp only [String.append_assoc]

/-- C5: `ping` issues one `GET` to `/projects?org_id=<org>&limit=1`;
whenever the transport delivers a response, the result is
`Ok(status is 2xx)` — true on 2xx, false on any non-2xx, never an error —
and the result is an error exactly on transport failure. -/
theorem ping_result_cases (t : String → Except String Nat) (org : String) :
    (∀ s, t (pingUrl org) = .ok s → (ping t org).1 = .ok (is2xx s))
    ∧ (∀ e, t (pingUrl org) = .error e →
        (ping t org).1 = .error ("Failed to ping Neon API: " ++ e))
    ∧ (ping t org).2 = [.get (pingUrl org)] := by
  refine ⟨?_, ?_, ?_⟩
  · intro s hs; simp [ping, hs]
  · intro e he; simp [ping, he]
  · cases h : t (pingUrl org) <;> simp [ping, h]

/-- Witness for C5: a 503 response yields `Ok false`; a transport failure
yields an error. -/
theorem ping_result_cases_witness :
    (ping (fun _ => .ok 503) "org").1 = .ok false
    ∧ (ping (fun _ => .error "dns failure") "org").1
        = .error ("Failed to ping Neon API: " ++ "dns failure") := by
  constructor
  · exact (ping_result_cases (fun _ => .ok 503) "org").1 503 rfl
  · exact (ping_result_cases (fun _ => .error "dns failure") "org").2.1 "dns failure" rfl

/-- C8: `on_start` performs exactly one `ping`; a transport failure makes it
return an error (start aborts); a delivered non-2xx response logs a warning
and returns success; a 2xx response returns success with no warning. -/
theorem on_start_probe (t : String → Except String Nat) (org : String) :
    (on_start t org).2.1 = [.get (pingUrl org)]
    ∧ (∀ e, t (pingUrl org) = .error e →
        (on_start t org).1 = .error ("Failed to ping Neon API: " ++ e))
    ∧ (∀ s, t (pingUrl org) = .ok s → is2xx s = false →
        (on_start t org).1 = .ok () ∧ (on_start t org).2.2 ≠ [])
    ∧ (∀ s, t (pingUrl org) = .ok s → is2xx s = true →
        (on_start t org).1 = .ok () ∧ (on_start t org).2.2 = []) := by
  refine ⟨?_, ?_, ?_, ?_⟩
  · cases h : t (pingUrl org) with
    | error e => simp [on_start, ping, h]
    | ok s => cases hb : is2xx s <;> simp [on_start, ping, h, hb]
  · intro e he; simp [on_start, ping, he]
  · intro s hs hb; simp [on_start, ping, hs, hb]
  · intro s hs hb; simp [on_start, ping, hs, hb]

/-- Witness for C8: with a remote answering 500, start succeeds with a
warning logged; with a transport failure, start returns an error; with 200 it
succeeds silently; in each case exactly one request is made. -/
theorem on_start_probe_witness :
    (on_start (fun _ => .ok 500) "org").2.1 = [.get (pingUrl "org")]
    ∧ (on_start (fun _ => .ok 500) "org").1 = .ok ()
    ∧ (on_start (fun _ => .ok 500) "org").2.2 ≠ []
    ∧ (on_start (fun _ => .error "timeout") "org").1
        = .error ("Failed to ping Neon API: " ++ "timeout")
    ∧ (on_start (fun _ => .ok 200) "org").1 = .ok ()
    ∧ (on_start (fun _ => .ok 200) "org").2.2 = [] := by
  refine ⟨(on_start_probe (fun _ => .ok 500) "org").1, ?_, ?_, ?_, ?_, ?_⟩
  · exact ((on_start_probe (fun _ => .ok 500) "org").2.2.1 500 rfl rfl).1
  · exact ((on_start_probe (fun _ => .ok 500) "org").2.2.1 500 rfl rfl).2
  · exact (on_start_probe (fun _ => .error "timeout") "org").2.1 "timeout" rfl
  · exact ((on_start_probe (fun _ => .ok 200) "org").2.2.2 200 rfl rfl).1
  · exact ((on_start_probe (fun _ => .ok 200) "org").2.2.2 200 rfl rfl).2

/-- C9: in the PID-file path of `stop`, SIGTERM is sent only when the live
process's trimmed `ps` command name contains `fgp-neon`; when it does not
(e.g. `other-daemon`), or when the `ps` lookup fails, no signal is sent and
the command exits non-zero with the "unexpected process" error. -/
theorem cmd_stop_signals_only_fgp_neon (pid : Int) (ps : PsResult) :
    (∀ acts, cmd_stop_pidPath pid ps = .ok acts →
        acts = [.sigterm pid]
        ∧ ∃ comm, ps = .ok comm ∧ strContains (strTrim comm) "fgp-neon" = true)
    ∧ (∀ comm, ps = .ok comm → strContains (strTrim comm) "fgp-neon" = false →
        cmd_stop_pidPath pid ps
          = .error ("Refusing to stop PID " ++ toString pid ++ ": unexpected process"))
    ∧ (ps = .fail →
        cmd_stop_pidPath pid ps
          = .error ("Refusing to stop PID " ++ toString pid ++ ": unexpected process")) := by
  refine ⟨?_, ?_, ?_⟩
  · intro acts hacts
    cases ps with
    | fail => simp [cmd_stop_pidPath, pid_matches_process] at hacts
    | ok comm =>
      by_cases h : strContains (strTrim comm) "fgp-neon" = true
      · rw [cmd_stop_pidPath, if_pos (by simpa [pid_matches_process] using h)] at hacts
        exact ⟨(Except.ok.inj hacts).symm, comm, rfl, h⟩
      · rw [cmd_stop_pidPath, if_neg (by simpa [pid_matches_process] using h)] at hacts
        exact absurd hacts (by simp)
  · intro comm hcomm h
    subst hcomm
    rw [cmd_stop_pidPath, if_neg (by simp [pid_matches_process, h])]
  · intro h
    subst h
    rw [cmd_stop_pidPath, if_neg (by simp [pid_matches_process])]

/-- Witness for C9: with `ps` reporting `other-daemon`, and with a failing
`ps` lookup, `stop` refuses with the "unexpected process" error; with
`fgp-neon` it sends exactly the one SIGTERM. -/
theorem cmd_stop_signals_only_fgp_neon_witness :
    cmd_stop_pidPath 42 (.ok "other-daemon\n")
      = .error ("Refusing to stop PID " ++ toString (42 : Int) ++ ": unexpected process")
    ∧ cmd_stop_pidPath 42 .fail
      = .error ("Refusing to stop PID " ++ toString (42 : Int) ++ ": unexpected process")
    ∧ ∀ acts, cmd_stop_pidPath 7 (.ok "fgp-neon\n") = .ok acts → acts = [.sigterm 7] := by
  refine ⟨?_, ?_, ?_⟩
  · exact (cmd_stop_signals_only_fgp_neon 42 (.ok "other-daemon\n")).2.1
      "other-daemon\n" rfl (by decide)
  · exact (cmd_stop_signals_only_fgp_neon 42 .fail).2.2 rfl
  · intro acts hacts
    exact ((cmd_stop_signals_only_fgp_neon 7 (.ok "fgp-neon\n")).1 acts hacts).1

/-- C1: every `run_sql` — including the calls `get_tables` and
`get_table_schema` make on behalf of `neon.tables` and `neon.schema` — first
fetches the project's endpoint list; when no returned endpoint has the
requested `branch_id` it fails with the NotFound message naming the branch,
having performed zero POSTs; otherwise it performs exactly one POST, to
`https://<host>/sql` for the host of the first endpoint in server-returned
order whose `branch_id` matches, with body `{"query": <query>, "params": []}`. -/
theorem run_sql_endpoint_selection (w : SqlWorld) (pid bid db q : String)
    (eps : List Endpoint) (hw : w.endpoints = .ok eps) :
    (run_sql w pid bid db q).2.head? = some (.get (endpointsUrl pid))
    ∧ (eps.find? (fun e => e.branch_id == bid) = none →
        (run_sql w pid bid db q).1 = .error ("No endpoint found for branch " ++ bid)
        ∧ (run_sql w pid bid db q).2.filter Req.isPost = [])
    ∧ (∀ e, eps.find? (fun e => e.branch_id == bid) = some e →
        e.branch_id = bid
        ∧ (∃ pre post, eps = pre ++ e :: post ∧ ∀ x ∈ pre, x.branch_id ≠ bid)
        ∧ (run_sql w pid bid db q).2.filter Req.isPost
            = [.post ("https://" ++ e.host ++ "/sql") (sqlBody q)])
    ∧ (∀ database, get_tables w pid bid database = run_sql w pid bid database tablesQuery)
    ∧ (∀ database t, get_table_schema w pid bid database t
        = run_sql w pid bid database (tableSchemaQuery t)) := by
  refine ⟨?_, ?_, ?_, fun _ => rfl, fun _ _ => rfl⟩
  · rw [run_sql, hw]
    cases hf : eps.find? (fun e => e.branch_id == bid) with
    | none => simp [hf]
    | some e =>
      cases hr : w.sqlResp ("https://" ++ e.host ++ "/sql") (sqlBody q) with
      | error err => simp [hf, hr]
      | ok sr =>
        obtain ⟨status, rbody⟩ := sr
        by_cases h2 : is2xx status = true <;> simp [hf, hr, h2]
  · intro hf
    rw [run_sql, hw]
    simp [hf, Req.isPost]
  · intro e hf
    have hmem := List.find?_some hf
    refine ⟨by simpa using hmem, ?_, ?_⟩
    · obtain ⟨pre, post, hsplit, hpre, _⟩ :=
        find?_first_match (fun e => e.branch_id == bid) eps e hf
      exact ⟨pre, post, hsplit, fun x hx => by simpa using hpre x hx⟩
    · rw [run_sql, hw]
      cases hr : w.sqlResp ("https://" ++ e.host ++ "/sql") (sqlBody q) with
      | error err => simp [hf, hr, Req.isPost]
      | ok sr =>
        obtain ⟨status, rbody⟩ := sr
        by_cases h2 : is2xx status = true <;> simp [hf, hr, h2, Req.isPost]

/-- Witness for C1, the spec's scenario 3: with endpoints
`[(e1,h1,br_y), (e2,h2,br_x)]`, running SQL against branch `br_x` POSTs
exactly once, to `https://h2/sql`, with body `{"query":"select 1","params":[]}`;
against branch `br_z` it fails with NotFound and performs zero POSTs. -/
theorem run_sql_endpoint_selection_witness :
    (run_sql ⟨.ok [⟨"e1", "h1", "br_y"⟩, ⟨"e2", "h2", "br_x"⟩], fun _ _ => .ok (200, .null)⟩
        "p" "br_x" "d" "select 1").2.filter Req.isPost
      = [.post ("https://" ++ "h2" ++ "/sql") (sqlBody "select 1")]
    ∧ (run_sql ⟨.ok [⟨"e1", "h1", "br_y"⟩, ⟨"e2", "h2", "br_x"⟩], fun _ _ => .ok (200, .null)⟩
        "p" "br_z" "d" "select 1").1 = .error ("No endpoint found for branch " ++ "br_z")
    ∧ (run_sql ⟨.ok [⟨"e1", "h1", "br_y"⟩, ⟨"e2", "h2", "br_x"⟩], fun _ _ => .ok (200, .null)⟩
        "p" "br_z" "d" "select 1").2.filter Req.isPost = [] := by
  refine ⟨?_, ?_, ?_⟩
  · exact ((run_sql_endpoint_selection
      ⟨.ok [⟨"e1", "h1", "br_y"⟩, ⟨"e2", "h2", "br_x"⟩], fun _ _ => .ok (200, .null)⟩
      "p" "br_x" "d" "select 1" [⟨"e1", "h1", "br_y"⟩, ⟨"e2", "h2", "br_x"⟩]
      rfl).2.2.1 ⟨"e2", "h2", "br_x"⟩ (by decide)).2.2
  · exact ((run_sql_endpoint_selection
      ⟨.ok [⟨"e1", "h1", "br_y"⟩, ⟨"e2", "h2", "br_x"⟩], fun _ _ => .ok (200, .null)⟩
      "p" "br_z" "d" "select 1" [⟨"e1", "h1", "br_y"⟩, ⟨"e2", "h2", "br_x"⟩]
      rfl).2.1 (by decide)).1
  · exact ((run_sql_endpoint_selection
      ⟨.ok [⟨"e1", "h1", "br_y"⟩, ⟨"e2", "h2", "br_x"⟩], fun _ _ => .ok (200, .null)⟩
      "p" "br_z" "d" "select 1" [⟨"e1", "h1", "br_y"⟩, ⟨"e2", "h2", "br_x"⟩]
      rfl).2.1 (by decide)).2

/-- C6 counterexample: a `limit` of 3.7 is NOT coerced by truncation to 3 —
`as_i64` yields `None` on any float, so the default 10 is used. -/
theorem limit_float_not_truncated :
    get_param_i32 [("limit", Json.num (.float (37 / 10)))] "limit" 10 = 10
    ∧ get_param_i32 [("limit", Json.num (.float (37 / 10)))] "limit" 10 ≠ 3 := by
  have h : get_param_i32 [("limit", Json.num (.float (37 / 10)))] "limit" 10 = 10 := rfl
  exact ⟨h, by rw [h]; decide⟩

/-- C6 (amended): `neon.projects` passes `Some(get_param_i32(params,
"limit", 10))` to `list_projects`; a JSON number arriving as an integer is
narrowed to 32 bits (two's-complement wrap), while a non-integer JSON number
is NOT truncated — it is replaced by the default 10. -/
theorem limit_param_narrowing (params : Params) :
    dispatchCall "neon.projects" params
      = .ok (.listProjects (some (get_param_i32 params "limit" 10)))
    ∧ (∀ jn v, pget params "limit" = some (.num jn) → jn.as_i64 = some v →
        get_param_i32 params "limit" 10 = wrap32 v)
    ∧ (∀ q : ℚ, pget params "limit" = some (.num (.float q)) →
        get_param_i32 params "limit" 10 = 10) := by
  refine ⟨rfl, ?_, ?_⟩
  · intro jn v hp hv
    simp [get_param_i32, hp, Json.as_i64, hv]
  · intro q hp
    simp [get_param_i32, hp, Json.as_i64, JNum.as_i64]

/-- Witness for C6 (amended): an integral `limit` of 3 is passed through as
3, and a float `limit` of 3.7 becomes the default 10. -/
theorem limit_param_narrowing_witness :
    get_param_i32 [("limit", Json.num (.posInt 3))] "limit" 10 = wrap32 3
    ∧ get_param_i32 [("limit", Json.num (.float (37 / 10)))] "limit" 10 = 10 := by
  constructor
  · exact (limit_param_narrowing [("limit", Json.num (.posInt 3))]).2.1
      (.posInt 3) 3 rfl (by decide)
  · exact (limit_param_narrowing [("limit", Json.num (.float (37 / 10)))]).2.2
      (37 / 10) rfl

/-- C10 counterexample: a JSON integer of 2^63 lies outside the signed
32-bit range, but it is not wrapped modulo 2^32 (which would give 0):
`as_i64` fails on u64 values above `i64::MAX`, so the default 10 is used. -/
theorem limit_u64_overflow_not_wrapped :
    get_param_i32 [("limit", Json.num (.posInt (2 ^ 63)))] "limit" 10 = 10
    ∧ wrap32 (2 ^ 63) = 0
    ∧ (10 : Int) ≠ 0 := by
  have hc : ¬((2 ^ 63 : Nat) : Int) ≤ 2 ^ 63 - 1 := by norm_num
  refine ⟨?_, by unfold wrap32; norm_num, by norm_num⟩
  simp [get_param_i32, pget, Json.as_i64, JNum.as_i64, hc]

/-- C10 (amended): a `limit` arriving as a JSON integer representable in
i64 is narrowed by a two's-complement wrap modulo 2^32 (2^31 becomes
-2^31), and the wrapped, possibly negative, value is interpolated unchecked
into the `&limit=<n>` query string; a JSON integer above `i64::MAX` instead
falls back to the default 10. -/
theorem limit_wrap_and_url (params : Params) (org : String) :
    (∀ n : Nat, (n : Int) ≤ 2 ^ 63 - 1 →
        pget params "limit" = some (.num (.posInt n)) →
        get_param_i32 params "limit" 10 = wrap32 n)
    ∧ (∀ n : Int, pget params "limit" = some (.num (.negInt n)) →
        get_param_i32 params "limit" 10 = wrap32 n)
    ∧ (∀ n : Nat, (2 ^ 63 - 1 : Int) < n →
        pget params "limit" = some (.num (.posInt n)) →
        get_param_i32 params "limit" 10 = 10)
    ∧ wrap32 (2 ^ 31) = -(2 ^ 31)
    ∧ (∀ l : Int, listProjectsUrl org (some l)
        = (API_BASE ++ "/projects?org_id=" ++ org) ++ "&limit=" ++ toString l) := by
    refine ⟨?_, ?_, ?_, by unfold wrap32; norm_num, fun l => rfl⟩
    · intro n hn hp
      have hn' : n ≤ 9223372036854775807 := by omega
      simp [get_param_i32, hp, Json.as_i64, JNum.as_i64, hn']
    · intro n hp
      simp [get_param_i32, hp, Json.as_i64, JNum.as_i64]
    · intro n hn hp
      have hn' : ¬n ≤ 9223372036854775807 := by omega
      simp [get_param_i32, hp, Json.as_i64, JNum.as_i64, hn']

/-- Witness for C10 (amended): `limit = 2^31` wraps to `-2^31` and is
interpolated as `&limit=-2147483648`; `limit = 2^63` becomes the default. -/
theorem limit_wrap_and_url_witness :
    get_param_i32 [("limit", Json.num (.posInt (2 ^ 31)))] "limit" 10 = -2147483648
    ∧ listProjectsUrl "o" (some (-2147483648))
        = (API_BASE ++ "/projects?org_id=" ++ "o") ++ "&limit=" ++ toString (-2147483648 : Int)
    ∧ get_param_i32 [("limit", Json.num (.posInt (2 ^ 63)))] "limit" 10 = 10 := by
  refine ⟨?_, ?_, ?_⟩
  · have h := (limit_wrap_and_url [("limit", Json.num (.posInt (2 ^ 31)))] "o").1
      (2 ^ 31) (by norm_num) rfl
    rw [h]
    unfold wrap32
    push_cast
  · exact (limit_wrap_and_url [] "o").2.2.2.2 (-2147483648)
  · exact (limit_wrap_and_url [("limit", Json.num (.posInt (2 ^ 63)))] "o").2.2.1
      (2 ^ 63) (by norm_num) rfl

/-- C7 counterexample: a non-boolean `pooled` ("yes") is not rejected —
dispatch proceeds and the adapter receives `pooled = false`. -/
theorem pooled_non_bool_not_rejected :
    dispatchCall "neon.connection_string"
        [("project_id", Json.str "p"), ("pooled", Json.str "yes")]
      = .ok (.getConnectionString "p" none none false) := rfl

/-- C7 (amended): a supplied `pooled` that is not a JSON boolean is ignored
rather than rejected: `as_bool().unwrap_or(false)` makes dispatch proceed
with the default `false`. -/
theorem pooled_non_bool_defaults_false (params : Params) (s : String) (v : Json)
    (hpid : get_param_str params "project_id" = some s)
    (hv : pget params "pooled" = some v) (hb : v.asBool = none) :
    dispatchCall "neon.connection_string" params
      = .ok (.getConnectionString s (get_param_str params "branch_id")
          (get_param_str params "database") false) := by
  simp [dispatchCall, svc_get_connection_string, requiredStr, hpid, hv, hb]

/-- Witness for C7 (amended): with `pooled = "yes"` (a string), dispatch
succeeds and the adapter receives `pooled = false`. -/
theorem pooled_non_bool_defaults_false_witness :
    dispatchCall "neon.connection_string"
        [("project_id", Json.str "p"), ("pooled", Json.str "yes")]
      = .ok (.getConnectionString "p"
          (get_param_str [("project_id", Json.str "p"), ("pooled", Json.str "yes")] "branch_id")
          (get_param_str [("project_id", Json.str "p"), ("pooled", Json.str "yes")] "database")
          false) :=
  pooled_non_bool_defaults_false
    [("project_id", Json.str "p"), ("pooled", Json.str "yes")]
    "p" (Json.str "yes") rfl rfl rfl

/-- A missing or wrongly-typed required parameter in a one-required-parameter
method: `svc_get_project`. -/
theorem svc_get_project_missing (params : Params) (P : String)
    (hP : P ∈ (["project_id"] : List String))
    (hnone : get_param_str params P = none) :
    svc_get_project params = .error ("Missing required parameter: " ++ P) := by
  obtain rfl : P = "project_id" := by simpa using hP
  simp [svc_get_project, requiredStr, hnone]

/-- As `svc_get_project_missing`, for `svc_list_branches`. -/
theorem svc_list_branches_missing (params : Params) (P : String)
    (hP : P ∈ (["project_id"] : List String))
    (hnone : get_param_str params P = none) :
    svc_list_branches params = .error ("Missing required parameter: " ++ P) := by
  obtain rfl : P = "project_id" := by simpa using hP
  simp [svc_list_branches, requiredStr, hnone]

/-- As `svc_get_project_missing`, for `svc_create_branch`. -/
theorem svc_create_branch_missing (params : Params) (P : String)
    (hP : P ∈ (["project_id"] : List String))
    (hnone : get_param_str params P = none) :
    svc_create_branch params = .error ("Missing required parameter: " ++ P) := by
  obtain rfl : P = "project_id" := by simpa using hP
  simp [svc_create_branch, requiredStr, hnone]

/-- As `svc_get_project_missing`, for `svc_get_connection_string`. -/
theorem svc_get_connection_string_missing (params : Params) (P : String)
    (hP : P ∈ (["project_id"] : List String))
    (hnone : get_param_str params P = none) :
    svc_get_connection_string params = .error ("Missing required parameter: " ++ P) := by
  obtain rfl : P = "project_id" := by simpa using hP
  simp [svc_get_connection_string, requiredStr, hnone]

/-- A missing required parameter in `svc_list_databases`, provided the other
required parameter is present as a string. -/
theorem svc_list_databases_missing (params : Params) (P : String)
    (hP : P ∈ (["project_id", "branch_id"] : List String))
    (hothers : ∀ Q ∈ (["project_id", "branch_id"] : List String), Q ≠ P →
      (get_param_str params Q).isSome)
    (hnone : get_param_str params P = none) :
    svc_list_databases params = .error ("Missing required parameter: " ++ P) := by
  rcases (by simpa using hP : P = "project_id" ∨ P = "branch_id") with rfl | rfl
  · simp [svc_list_databases, requiredStr, hnone]
  · obtain ⟨s1, hs1⟩ := Option.isSome_iff_exists.mp
      (hothers "project_id" (by simp) (by decide))
    simp [svc_list_databases, requiredStr, hs1, hnone]

/-- As `svc_list_databases_missing`, for `svc_get_tables`. -/
theorem svc_get_tables_missing (params : Params) (P : String)
    (hP : P ∈ (["project_id", "branch_id"] : List String))
    (hothers : ∀ Q ∈ (["project_id", "branch_id"] : List String), Q ≠ P →
      (get_param_str params Q).isSome)
    (hnone : get_param_str params P = none) :
    svc_get_tables params = .error ("Missing required parameter: " ++ P) := by
  rcases (by simpa using hP : P = "project_id" ∨ P = "branch_id") with rfl | rfl
  · simp [svc_get_tables, requiredStr, hnone]
  · obtain ⟨s1, hs1⟩ := Option.isSome_iff_exists.mp
      (hothers "project_id" (by simp) (by decide))
    simp [svc_get_tables, requiredStr, hs1, hnone]

/-- As `svc_list_databases_missing`, for `svc_delete_branch`. -/
theorem svc_delete_branch_missing (params : Params) (P : String)
    (hP : P ∈ (["project_id", "branch_id"] : List String))
    (hothers : ∀ Q ∈ (["project_id", "branch_id"] : List String), Q ≠ P →
      (get_param_str params Q).isSome)
    (hnone : get_param_str params P = none) :
    svc_delete_branch params = .error ("Missing required parameter: " ++ P) := by
  rcases (by simpa using hP : P = "project_id" ∨ P = "branch_id") with rfl | rfl
  · simp [svc_delete_branch, requiredStr, hnone]
  · obtain ⟨s1, hs1⟩ := Option.isSome_iff_exists.mp
      (hothers "project_id" (by simp) (by decide))
    simp [svc_delete_branch, requiredStr, hs1, hnone]

/-- A missing required parameter in `svc_get_table_schema`, provided the
other required parameters are present as strings. -/
theorem svc_get_table_schema_missing (params : Params) (P : String)
    (hP : P ∈ (["project_id", "branch_id", "table"] : List String))
    (hothers : ∀ Q ∈ (["project_id", "branch_id", "table"] : List String), Q ≠ P →
      (get_param_str params Q).isSome)
    (hnone : get_param_str params P = none) :
    svc_get_table_schema params = .error ("Missing required parameter: " ++ P) := by
  rcases (by simpa using hP : P = "project_id" ∨ P = "branch_id" ∨ P = "table")
    with rfl | rfl | rfl
  · simp [svc_get_table_schema, requiredStr, hnone]
  · obtain ⟨s1, hs1⟩ := Option.isSome_iff_exists.mp
      (hothers "project_id" (by simp) (by decide))
    simp [svc_get_table_schema, requiredStr, hs1, hnone]
  · obtain ⟨s1, hs1⟩ := Option.isSome_iff_exists.mp
      (hothers "project_id" (by simp) (by decide))
    obtain ⟨s2, hs2⟩ := Option.isSome_iff_exists.mp
      (hothers "branch_id" (by simp) (by decide))
    simp [svc_get_table_schema, requiredStr, hs1, hs2, hnone]

/-- As `svc_get_table_schema_missing`, for `svc_run_sql`. -/
theorem svc_run_sql_missing (params : Params) (P : String)
    (hP : P ∈ (["project_id", "branch_id", "query"] : List String))
    (hothers : ∀ Q ∈ (["project_id", "branch_id", "query"] : List String), Q ≠ P →
      (get_param_str params Q).isSome)
    (hnone : get_param_str params P = none) :
    svc_run_sql params = .error ("Missing required parameter: " ++ P) := by
  rcases (by simpa using hP : P = "project_id" ∨ P = "branch_id" ∨ P = "query")
    with rfl | rfl | rfl
  · simp [svc_run_sql, requiredStr, hnone]
  · obtain ⟨s1, hs1⟩ := Option.isSome_iff_exists.mp
      (hothers "project_id" (by simp) (by decide))
    simp [svc_run_sql, requiredStr, hs1, hnone]
  · obtain ⟨s1, hs1⟩ := Option.isSome_iff_exists.mp
      (hothers "project_id" (by simp) (by decide))
    obtain ⟨s2, hs2⟩ := Option.isSome_iff_exists.mp
      (hothers "branch_id" (by simp) (by decide))
    simp [svc_run_sql, requiredStr, hs1, hs2, hnone]

/-- C2: for every dispatched method and every required parameter `P` of that
method, if `P` is absent from the bag or present with a non-string value
(while the method's other required parameters are well-formed), dispatch
fails with "Missing required parameter: P" and performs no HTTP request. -/
theorem dispatch_missing_required_param (m P : String) (params : Params)
    (hP : P ∈ reqParams m)
    (hothers : ∀ Q ∈ reqParams m, Q ≠ P → (get_param_str params Q).isSome)
    (hmiss : pget params P = none ∨ ∃ v, pget params P = some v ∧ v.asStr = none) :
    dispatchCall m params = .error ("Missing required parameter: " ++ P)
    ∧ ∀ w org, dispatchReqs w org m params = [] := by
  have hnone : get_param_str params P = none := by
    rcases hmiss with h | ⟨v, hv, hvs⟩
    · simp [get_param_str, h]
    · simp [get_param_str, hv, hvs]
  have hmain : dispatchCall m params = .error ("Missing required parameter: " ++ P) := by
    unfold reqParams at hP hothers
    split at hP
    · exact svc_get_project_missing params P hP hnone
    · exact svc_get_project_missing params P hP hnone
    · exact svc_list_branches_missing params P hP hnone
    · exact svc_list_branches_missing params P hP hnone
    · exact svc_list_databases_missing params P hP hothers hnone
    · exact svc_list_databases_missing params P hP hothers hnone
    · exact svc_get_tables_missing params P hP hothers hnone
    · exact svc_get_tables_missing params P hP hothers hnone
    · exact svc_get_table_schema_missing params P hP hothers hnone
    · exact svc_get_table_schema_missing params P hP hothers hnone
    · exact svc_run_sql_missing params P hP hothers hnone
    · exact svc_run_sql_missing params P hP hothers hnone
    · exact svc_create_branch_missing params P hP hnone
    · exact svc_create_branch_missing params P hP hnone
    · exact svc_delete_branch_missing params P hP hothers hnone
    · exact svc_delete_branch_missing params P hP hothers hnone
    · exact svc_get_connection_string_missing params P hP hnone
    · exact svc_get_connection_string_missing params P hP hnone
    · exact absurd hP (List.not_mem_nil P)
  exact ⟨hmain, fun w org => dispatchReqs_of_error w org m params _ hmain⟩

/-- Witness for C2, the spec's scenario 5: `neon.databases` with only
`project_id` fails with "Missing required parameter: branch_id" and performs
no HTTP request. -/
theorem dispatch_missing_required_param_witness :
    dispatchCall "neon.databases" [("project_id", Json.str "p")]
      = .error ("Missing required parameter: " ++ "branch_id")
    ∧ dispatchReqs ⟨.ok [], fun _ _ => .ok (200, .null)⟩ "org"
        "neon.databases" [("project_id", Json.str "p")] = [] := by
  have h := dispatch_missing_required_param "neon.databases" "branch_id"
    [("project_id", Json.str "p")] (by decide)
    (by decide) (Or.inl rfl)
  exact ⟨h.1, h.2 ⟨.ok [], fun _ _ => .ok (200, .null)⟩ "org"⟩

/-- C3 (code bug): `method_list` advertises default `"neondb"` for the
`database` parameter of `neon.connection_string`, but dispatching that method
with `database` absent passes `None` — not the advertised default — to the
adapter's `get_connection_string`. -/
theorem connection_string_default_not_applied :
    dispatchCall "neon.connection_string" [("project_id", Json.str "p")]
      = .ok (.getConnectionString "p" none none false)
    ∧ (method_list.find? (fun mi => mi.name == "neon.connection_string")).map
        (fun mi => mi.params.find? (fun pi => pi.name == "database"))
      = some (some ⟨"database", "string", false, some (.str "neondb")⟩) :=
  ⟨rfl, rfl⟩

end FgpNeon
